import Mathlib

/-
Verification of the fee-regulation engine of honorarios.py
(Regulacion de honorarios UMA, P1/P2, escala del art. 21 Ley 27.423).

The source computes with Python floats; the embedding uses exact rationals,
which agree with the source on every quantity the claims mention.  The Qt
user-interface layer is out of scope: the computational core of
RegulacionUMA.calcular (lines 221-265 of the source) is embedded as the
function calcular over already-parsed inputs, with the ValueError and
ZeroDivisionError exits of the source represented by an explicit error type.
-/

/-- One bracket of the schedule (source: dataclass Tramo, lines 41-46).
max_uma is None in Python for the unbounded last bracket. -/
structure Tramo where
  min_uma : ℚ
  max_uma : Option ℚ
  pct_min : ℚ
  pct_max : ℚ
deriving DecidableEq

/-- Bracket 0 of ESCALA (source line 49). -/
def t0 : Tramo := ⟨0, some 15, 22/100, 33/100⟩

/-- Bracket 1 of ESCALA (source line 50). -/
def t1 : Tramo := ⟨16, some 45, 20/100, 26/100⟩

/-- Bracket 2 of ESCALA (source line 51). -/
def t2 : Tramo := ⟨46, some 90, 18/100, 24/100⟩

/-- Bracket 3 of ESCALA (source line 52). -/
def t3 : Tramo := ⟨91, some 150, 17/100, 22/100⟩

/-- Bracket 4 of ESCALA (source line 53). -/
def t4 : Tramo := ⟨151, some 450, 15/100, 20/100⟩

/-- Bracket 5 of ESCALA (source line 54). -/
def t5 : Tramo := ⟨451, some 750, 13/100, 17/100⟩

/-- Bracket 6 of ESCALA, unbounded (source line 55). -/
def t6 : Tramo := ⟨751, none, 12/100, 15/100⟩

/-- The fixed 7-entry schedule (source lines 48-56). -/
def ESCALA : List Tramo := [t0, t1, t2, t3, t4, t5, t6]

/-- The membership test performed for one bracket by the loop of
buscar_tramo (source lines 60-65): for the unbounded bracket the test is
min_uma <= x, otherwise min_uma <= x <= max_uma. -/
def contiene (t : Tramo) (x : ℚ) : Prop :=
  match t.max_uma with
  | none => t.min_uma ≤ x
  | some m => t.min_uma ≤ x ∧ x ≤ m

instance decContiene (t : Tramo) (x : ℚ) : Decidable (contiene t x) :=
  match t with
  | ⟨mn, none, _, _⟩ => inferInstanceAs (Decidable (mn ≤ x))
  | ⟨mn, some m, _, _⟩ => inferInstanceAs (Decidable (mn ≤ x ∧ x ≤ m))

/-- The enumerate-scan of buscar_tramo (source lines 59-65): first index i
(counting from the accumulator) whose bracket contains x. -/
def findTramo (i : Nat) (l : List Tramo) (x : ℚ) : Option (Nat × Tramo) :=
  match l with
  | [] => none
  | t :: ts => if contiene t x then some (i, t) else findTramo (i + 1) ts x

/-- buscar_tramo (source lines 58-66): scan ESCALA in order; if no bracket
matches, fall back to index 0 and the first bracket (source line 66). -/
def buscar_tramo (x : ℚ) : Nat × Tramo :=
  (findTramo 0 ESCALA x).getD (0, t0)

/-- The sequential multiplier accumulation of calcular_uma_p1p2
(source lines 88-94): start at 1, then *1.4 if apoderado, *0.5 if
mitad art. 41, *0.9 if menos10. -/
def mult_flags (es_apoderado mitad_art41 aplicar_menos10 : Bool) : ℚ :=
  let m : ℚ := 1
  let m := if es_apoderado then m * (14/10) else m
  let m := if mitad_art41 then m * (5/10) else m
  let m := if aplicar_menos10 then m * (9/10) else m
  m

/-- The detail dictionary returned by calcular_uma_p1p2
(source lines 103-114). -/
structure Detalle where
  tramo_actual : Tramo
  p1_uma : ℚ
  p2_uma : ℚ
  pct_prev_max : ℚ
  pct_act_base_min : ℚ
  pct_p1_eff : ℚ
  pct_p2_eff : ℚ
  res_a_uma : ℚ
  res_b_uma : ℚ
deriving DecidableEq

/-- calcular_uma_p1p2 (source lines 70-115).  The Python expression
ESCALA[idx - 1] is embedded as List.getD with default t0; it is only
reached with 1 <= idx <= 6, where both agree with the source. -/
def calcular_uma_p1p2 (uma_total : ℚ)
    (es_apoderado mitad_art41 aplicar_menos10 : Bool) : ℚ × Detalle :=
  let r := buscar_tramo uma_total
  let idx := r.1
  let tramo_act := r.2
  let prev_max_uma : ℚ :=
    if idx = 0 then 0 else ((ESCALA.getD (idx - 1) t0).max_uma).getD 0
  let pct_prev : ℚ :=
    if idx = 0 then 0 else (ESCALA.getD (idx - 1) t0).pct_max
  let p1_uma := min uma_total prev_max_uma
  let p2_uma := max 0 (uma_total - p1_uma)
  let pct_act_base := tramo_act.pct_min
  let mult := mult_flags es_apoderado mitad_art41 aplicar_menos10
  let pct_p1_eff := pct_prev * mult
  let pct_p2_eff := pct_act_base * mult
  let res_a := p1_uma * pct_p1_eff
  let res_b := p2_uma * pct_p2_eff
  let total := res_a + res_b
  (total,
    { tramo_actual := tramo_act
      p1_uma := p1_uma
      p2_uma := p2_uma
      pct_prev_max := pct_prev
      pct_act_base_min := pct_act_base
      pct_p1_eff := pct_p1_eff
      pct_p2_eff := pct_p2_eff
      res_a_uma := res_a
      res_b_uma := res_b })

/-- Parsed inputs of RegulacionUMA.calcular (source lines 221-265).
Dates are day ordinals; only their order is used by the source. -/
structure CalcInput where
  cap_planilla : ℚ
  int_planilla : ℚ
  corte : ℤ
  fcalc : ℤ
  t_o : ℚ
  t_m : ℚ
  uma_calc_val : ℚ
  es_apoderado : Bool
  mitad_art41 : Bool
  aplicar_menos10 : Bool
  uma_pago : Option ℚ
deriving DecidableEq

/-- The error exits of RegulacionUMA.calcular: the two explicit ValueError
raises (source lines 228-229 and 245-246) and the ZeroDivisionError that
Python float division raises at source line 239 when 100 + t_o = 0. -/
inductive CalcError where
  | invalidDateRange : CalcError
  | divisionByZero : CalcError
  | invalidUnitValue : CalcError
deriving DecidableEq

/-- The numeric outputs of RegulacionUMA.calcular (source lines 239-264). -/
structure CalcOutput where
  factor : ℚ
  interes_adic : ℚ
  base_reg : ℚ
  uma_total : ℚ
  honor_uma : ℚ
  det : Detalle
  pesos_pago : Option ℚ
deriving DecidableEq

/-- The computational core of RegulacionUMA.calcular (source lines
221-265), in source order: date-range check, P 14.290 factor (with the
zero-divisor exit of Python float division), base, unit-value check,
conversion to UMA, calcular_uma_p1p2, optional payment conversion. -/
def calcular (inp : CalcInput) : Except CalcError CalcOutput :=
  if inp.fcalc ≤ inp.corte then Except.error CalcError.invalidDateRange
  else
    let total_planilla := inp.cap_planilla + inp.int_planilla
    if (100 : ℚ) + inp.t_o = 0 then Except.error CalcError.divisionByZero
    else
      let factor := (100 + inp.t_m) / (100 + inp.t_o) - 1
      let interes_adic := inp.cap_planilla * factor
      let base_reg := total_planilla + interes_adic
      if inp.uma_calc_val ≤ 0 then Except.error CalcError.invalidUnitValue
      else
        let uma_total := base_reg / inp.uma_calc_val
        let hd := calcular_uma_p1p2 uma_total
          inp.es_apoderado inp.mitad_art41 inp.aplicar_menos10
        let pesos_pago : Option ℚ :=
          match inp.uma_pago with
          | none => none
          | some v => if 0 < v then some (hd.1 * v) else none
        Except.ok
          { factor := factor
            interes_adic := interes_adic
            base_reg := base_reg
            uma_total := uma_total
            honor_uma := hd.1
            det := hd.2
            pesos_pago := pesos_pago }

/-- The six open gaps of the schedule: totals strictly between the max of
one bounded bracket and the min of the next. -/
def enHueco (x : ℚ) : Prop :=
  (15 < x ∧ x < 16) ∨ (45 < x ∧ x < 46) ∨ (90 < x ∧ x < 91) ∨
  (150 < x ∧ x < 151) ∨ (450 < x ∧ x < 451) ∨ (750 < x ∧ x < 751)

instance decEnHueco (x : ℚ) : Decidable (enHueco x) := by
  unfold enHueco
  infer_instance

-- ===================== basic characterizations =====================

/-- buscar_tramo written as the explicit 7-way conditional it unfolds to
on the concrete schedule. -/
lemma buscar_tramo_eq (x : ℚ) :
    buscar_tramo x =
      if contiene t0 x then ((0 : Nat), t0)
      else if contiene t1 x then (1, t1)
      else if contiene t2 x then (2, t2)
      else if contiene t3 x then (3, t3)
      else if contiene t4 x then (4, t4)
      else if contiene t5 x then (5, t5)
      else if contiene t6 x then (6, t6)
      else (0, t0) := by
  simp only [buscar_tramo, ESCALA, findTramo]
  split_ifs <;> rfl

/-- The multiplier is always strictly positive. -/
lemma mult_flags_pos (a b c : Bool) : 0 < mult_flags a b c := by
  cases a <;> cases b <;> cases c <;> norm_num [mult_flags]

/-- Every possible result of buscar_tramo, with the lower bound that the
matched condition provides for the non-first brackets. -/
lemma buscar_casos (x : ℚ) :
    buscar_tramo x = (0, t0) ∨
    (buscar_tramo x = (1, t1) ∧ 16 ≤ x) ∨
    (buscar_tramo x = (2, t2) ∧ 46 ≤ x) ∨
    (buscar_tramo x = (3, t3) ∧ 91 ≤ x) ∨
    (buscar_tramo x = (4, t4) ∧ 151 ≤ x) ∨
    (buscar_tramo x = (5, t5) ∧ 451 ≤ x) ∨
    (buscar_tramo x = (6, t6) ∧ 751 ≤ x) := by
  rw [buscar_tramo_eq]
  split_ifs with h0 h1 h2 h3 h4 h5 h6
  · exact Or.inl rfl
  · exact Or.inr (Or.inl ⟨rfl, h1.1⟩)
  · exact Or.inr (Or.inr (Or.inl ⟨rfl, h2.1⟩))
  · exact Or.inr (Or.inr (Or.inr (Or.inl ⟨rfl, h3.1⟩)))
  · exact Or.inr (Or.inr (Or.inr (Or.inr (Or.inl ⟨rfl, h4.1⟩))))
  · exact Or.inr (Or.inr (Or.inr (Or.inr (Or.inr (Or.inl ⟨rfl, h5.1⟩)))))
  · exact Or.inr (Or.inr (Or.inr (Or.inr (Or.inr (Or.inr ⟨rfl, h6⟩)))))
  · exact Or.inl rfl

/-- The fee total of calcular_uma_p1p2, written in terms of the located
bracket. -/
lemma total_of_eq (x : ℚ) (a b c : Bool) (i : Nat) (tr : Tramo)
    (h : buscar_tramo x = (i, tr)) :
    (calcular_uma_p1p2 x a b c).1 =
      min x (if i = 0 then 0 else ((ESCALA.getD (i - 1) t0).max_uma).getD 0) *
        ((if i = 0 then 0 else (ESCALA.getD (i - 1) t0).pct_max) *
          mult_flags a b c) +
      max 0 (x - min x
          (if i = 0 then 0 else ((ESCALA.getD (i - 1) t0).max_uma).getD 0)) *
        (tr.pct_min * mult_flags a b c) := by
  simp only [calcular_uma_p1p2, h]

-- ===================== claim C4 =====================

/-- Claim C4: split conservation.  For every totalUnits at least 0 and any
flag combination, calcular_uma_p1p2 produces p1_uma = min totalUnits
priorMax for the priorMax it selected, p2_uma = max 0 (totalUnits - p1_uma),
and p1_uma + p2_uma = totalUnits exactly. -/
theorem C4_split_conservation (x : ℚ) (hx : 0 ≤ x) (a b c : Bool) :
    (∃ pm : ℚ, (calcular_uma_p1p2 x a b c).2.p1_uma = min x pm) ∧
    (calcular_uma_p1p2 x a b c).2.p2_uma =
      max 0 (x - (calcular_uma_p1p2 x a b c).2.p1_uma) ∧
    (calcular_uma_p1p2 x a b c).2.p1_uma +
      (calcular_uma_p1p2 x a b c).2.p2_uma = x := by
  refine ⟨⟨if (buscar_tramo x).1 = 0 then 0
      else ((ESCALA.getD ((buscar_tramo x).1 - 1) t0).max_uma).getD 0, ?_⟩,
    ?_, ?_⟩
  · simp [calcular_uma_p1p2]
  · simp [calcular_uma_p1p2]
  · simp only [calcular_uma_p1p2]
    have h1 : min x (if (buscar_tramo x).1 = 0 then 0
        else ((ESCALA.getD ((buscar_tramo x).1 - 1) t0).max_uma).getD 0) ≤ x :=
      min_le_left _ _
    have h2 : max 0 (x - min x (if (buscar_tramo x).1 = 0 then 0
        else ((ESCALA.getD ((buscar_tramo x).1 - 1) t0).max_uma).getD 0)) =
        x - min x (if (buscar_tramo x).1 = 0 then 0
        else ((ESCALA.getD ((buscar_tramo x).1 - 1) t0).max_uma).getD 0) :=
      max_eq_right (by linarith)
    simp only [h2]
    ring

/-- Witness for C4 at totalUnits 10 with all flags off. -/
theorem C4_split_conservation_witness :
    (∃ pm : ℚ,
      (calcular_uma_p1p2 10 false false false).2.p1_uma = min 10 pm) ∧
    (calcular_uma_p1p2 10 false false false).2.p2_uma =
      max 0 (10 - (calcular_uma_p1p2 10 false false false).2.p1_uma) ∧
    (calcular_uma_p1p2 10 false false false).2.p1_uma +
      (calcular_uma_p1p2 10 false false false).2.p2_uma = 10 :=
  C4_split_conservation 10 (by norm_num) false false false

-- ===================== claim C5 =====================

/-- Claim C5: rate selection.  The P2 base rate recorded by
calcular_uma_p1p2 is always the pct_min of the located bracket (and the
effective P2 rate is that floor rate times the multiplier, never the
ceiling rate); when the located index is 0 the prior ceiling rate is 0 and
the prior cap is 0; otherwise the prior ceiling rate is the pct_max of the
previous schedule entry and the prior cap its max_uma. -/
theorem C5_rate_selection (x : ℚ) (a b c : Bool) :
    (calcular_uma_p1p2 x a b c).2.pct_act_base_min =
      (buscar_tramo x).2.pct_min ∧
    (calcular_uma_p1p2 x a b c).2.pct_p2_eff =
      (buscar_tramo x).2.pct_min * mult_flags a b c ∧
    ((buscar_tramo x).1 = 0 →
      (calcular_uma_p1p2 x a b c).2.pct_prev_max = 0 ∧
      (calcular_uma_p1p2 x a b c).2.p1_uma = min x 0) ∧
    ((buscar_tramo x).1 ≠ 0 →
      (calcular_uma_p1p2 x a b c).2.pct_prev_max =
        (ESCALA.getD ((buscar_tramo x).1 - 1) t0).pct_max ∧
      (calcular_uma_p1p2 x a b c).2.p1_uma =
        min x (((ESCALA.getD ((buscar_tramo x).1 - 1) t0).max_uma).getD 0)) := by
  refine ⟨?_, ?_, fun h => ?_, fun h => ?_⟩
  · simp [calcular_uma_p1p2]
  · simp [calcular_uma_p1p2]
  · simp [calcular_uma_p1p2, h]
  · simp [calcular_uma_p1p2, h]

/-- Witness for C5 at totalUnits 100, which lands in bracket 3, so the
prior entry is bracket 2 with ceiling rate 24/100 and cap 90. -/
theorem C5_rate_selection_witness :
    (calcular_uma_p1p2 100 true true true).2.pct_prev_max = 24/100 ∧
    (calcular_uma_p1p2 100 true true true).2.pct_act_base_min = 17/100 := by
  have hb : buscar_tramo (100 : ℚ) = (3, t3) := by
    rw [buscar_tramo_eq]
    norm_num [contiene, t0, t1, t2, t3]
  have h := C5_rate_selection 100 true true true
  refine ⟨?_, ?_⟩
  · have h4 := h.2.2.2 (by rw [hb]; decide)
    rw [h4.1, hb]
    norm_num [ESCALA, t2]
  · rw [h.1, hb]
    norm_num [t3]

-- ===================== claim C6 =====================

/-- One multiplicative adjustment step: the multiplier is scaled by f
exactly when the flag is on. -/
def aplicar_ajuste (m : ℚ) (flag : Bool) (f : ℚ) : ℚ :=
  if flag then m * f else m

/-- Claim C6: multiplier composition.  The sequentially accumulated
multiplier equals the closed product of the three factors, is unchanged
under every order of applying the three adjustment steps, and is applied
identically to both effective rates. -/
theorem C6_multiplier_composition (x : ℚ) (a b c : Bool) :
    mult_flags a b c =
      (if a then (14/10 : ℚ) else 1) * (if b then 5/10 else 1) *
        (if c then 9/10 else 1) ∧
    mult_flags a b c = aplicar_ajuste (aplicar_ajuste (aplicar_ajuste 1 a (14/10)) b (5/10)) c (9/10) ∧
    mult_flags a b c = aplicar_ajuste (aplicar_ajuste (aplicar_ajuste 1 a (14/10)) c (9/10)) b (5/10) ∧
    mult_flags a b c = aplicar_ajuste (aplicar_ajuste (aplicar_ajuste 1 b (5/10)) a (14/10)) c (9/10) ∧
    mult_flags a b c = aplicar_ajuste (aplicar_ajuste (aplicar_ajuste 1 b (5/10)) c (9/10)) a (14/10) ∧
    mult_flags a b c = aplicar_ajuste (aplicar_ajuste (aplicar_ajuste 1 c (9/10)) a (14/10)) b (5/10) ∧
    mult_flags a b c = aplicar_ajuste (aplicar_ajuste (aplicar_ajuste 1 c (9/10)) b (5/10)) a (14/10) ∧
    (calcular_uma_p1p2 x a b c).2.pct_p1_eff =
      (calcular_uma_p1p2 x a b c).2.pct_prev_max * mult_flags a b c ∧
    (calcular_uma_p1p2 x a b c).2.pct_p2_eff =
      (calcular_uma_p1p2 x a b c).2.pct_act_base_min * mult_flags a b c := by
  refine ⟨?_, ?_, ?_, ?_, ?_, ?_, ?_, ?_, ?_⟩
  · cases a <;> cases b <;> cases c <;> norm_num [mult_flags]
  · cases a <;> cases b <;> cases c <;> norm_num [mult_flags, aplicar_ajuste]
  · cases a <;> cases b <;> cases c <;> norm_num [mult_flags, aplicar_ajuste]
  · cases a <;> cases b <;> cases c <;> norm_num [mult_flags, aplicar_ajuste]
  · cases a <;> cases b <;> cases c <;> norm_num [mult_flags, aplicar_ajuste]
  · cases a <;> cases b <;> cases c <;> norm_num [mult_flags, aplicar_ajuste]
  · cases a <;> cases b <;> cases c <;> norm_num [mult_flags, aplicar_ajuste]
  · simp [calcular_uma_p1p2]
  · simp [calcular_uma_p1p2]

-- ===================== claim C3 =====================

/-- Claim C3: the update formula and the anti-compounding split of the
base.  Whenever calcular succeeds, the factor is
(100 + t_m) / (100 + t_o) - 1, the adjustment is principal times factor
(interest is excluded from it), and the regulatory base is
principal + interest + principal * factor. -/
theorem C3_update_formula (inp : CalcInput) (out : CalcOutput)
    (h : calcular inp = Except.ok out) :
    out.factor = (100 + inp.t_m) / (100 + inp.t_o) - 1 ∧
    out.interes_adic = inp.cap_planilla * out.factor ∧
    out.base_reg =
      inp.cap_planilla + inp.int_planilla + inp.cap_planilla * out.factor := by
  simp only [calcular] at h
  split_ifs at h
  all_goals first
    | exact Except.noConfusion h
    | (rw [Except.ok.injEq] at h
       subst h
       exact ⟨rfl, rfl, rfl⟩)

/-- The end-to-end example input of the spec: capital 15,000,000, interest
5,000,000, one day between cutoff and calculation, t_o = 62.15,
t_m = 74.80, unit value 20,567.79, the three flags at their interface
defaults, no payment-date unit value. -/
def ex_inp : CalcInput :=
  { cap_planilla := 15000000
    int_planilla := 5000000
    corte := 0
    fcalc := 1
    t_o := 1243/20
    t_m := 374/5
    uma_calc_val := 2056779/100
    es_apoderado := true
    mitad_art41 := true
    aplicar_menos10 := true
    uma_pago := none }

/-- Witness for C3 on the example input. -/
theorem C3_update_formula_witness :
    ∃ out, calcular ex_inp = Except.ok out ∧
      out.base_reg = 15000000 + 5000000 + 15000000 * out.factor := by
  have hok : ∃ out, calcular ex_inp = Except.ok out := by
    simp only [calcular, ex_inp]
    norm_num
  obtain ⟨out, hok⟩ := hok
  have h := C3_update_formula ex_inp out hok
  exact ⟨out, hok, by rw [h.2.2]; norm_num [ex_inp]⟩

-- ===================== claim C7 =====================

/-- Counterexample to claim C7 as stated: on the example input the code
computes factor = 11/141 = 0.078014..., which differs from the claimed
0.07836 by more than 1/3000, and adjustment = 55000000/47 =
1,170,212.77, which differs from the claimed 1,175,400 by more than
5,000. -/
theorem C7_counterexample :
    ∃ out, calcular ex_inp = Except.ok out ∧
      out.factor = 11/141 ∧
      1/3000 < |out.factor - 7836/100000| ∧
      5000 < |out.interes_adic - 1175400| := by
  simp only [calcular, ex_inp]
  norm_num
  constructor
  · rw [abs_of_pos (by norm_num)]
    norm_num
  · rw [abs_of_pos (by norm_num)]
    norm_num

/-- Claim C7 as amended: on the example input the code computes
factor = 11/141 = 0.078014..., adjustment = 55000000/47 = 1,170,212.77,
regulatory base = 995000000/47 = 21,170,212.77, total units
99500000000/96668613 = 1029.2896... (within 1/100 of 1029.29), landing in
the unbounded bracket (index 6, floor rate 0.12) with p1 units 750 and
prior ceiling rate 0.17. -/
theorem C7_amended :
    ∃ out, calcular ex_inp = Except.ok out ∧
      out.factor = 11/141 ∧
      out.interes_adic = 55000000/47 ∧
      out.base_reg = 995000000/47 ∧
      out.uma_total = 99500000000/96668613 ∧
      |out.uma_total - 102929/100| < 1/100 ∧
      buscar_tramo out.uma_total = (6, t6) ∧
      (buscar_tramo out.uma_total).2.pct_min = 12/100 ∧
      out.det.p1_uma = 750 ∧
      out.det.pct_prev_max = 17/100 := by
  have bt_big : buscar_tramo (99500000000/96668613 : ℚ) = (6, t6) := by
    rw [buscar_tramo_eq]
    norm_num [contiene, t0, t1, t2, t3, t4, t5, t6]
  simp only [calcular, ex_inp, calcular_uma_p1p2]
  norm_num [bt_big, ESCALA, t5, t6]
  rw [abs_of_pos (by norm_num)]
  norm_num

-- ===================== claim C9 =====================

/-- Claim C9: input validation.  If the cutoff date is equal to or later
than the calculation date, calcular fails with the invalid-date-range
error; if the dates are valid and the divisor is nonzero but the unit
value is 0 or negative, it fails with the invalid-unit-value error; in
both cases no output is produced. -/
theorem C9_validation (inp : CalcInput) :
    (inp.fcalc ≤ inp.corte →
      calcular inp = Except.error CalcError.invalidDateRange ∧
      ∀ out, calcular inp ≠ Except.ok out) ∧
    (inp.corte < inp.fcalc → (100 : ℚ) + inp.t_o ≠ 0 →
      inp.uma_calc_val ≤ 0 →
      calcular inp = Except.error CalcError.invalidUnitValue ∧
      ∀ out, calcular inp ≠ Except.ok out) := by
  constructor
  · intro h
    have he : calcular inp = Except.error CalcError.invalidDateRange := by
      simp [calcular, h]
    exact ⟨he, fun out hc => by rw [he] at hc; exact Except.noConfusion hc⟩
  · intro h1 h2 h3
    have he : calcular inp = Except.error CalcError.invalidUnitValue := by
      simp [calcular, not_le.mpr h1, h2, h3]
    exact ⟨he, fun out hc => by rw [he] at hc; exact Except.noConfusion hc⟩

/-- The error-scenario input with cutoff date equal to calculation date. -/
def inp_fecha : CalcInput :=
  { ex_inp with corte := 0, fcalc := 0 }

/-- The error-scenario input with unit value 0 and valid dates. -/
def inp_uma0 : CalcInput :=
  { ex_inp with uma_calc_val := 0 }

/-- Witness for C9 on the two error-scenario inputs of the spec. -/
theorem C9_validation_witness :
    calcular inp_fecha = Except.error CalcError.invalidDateRange ∧
    calcular inp_uma0 = Except.error CalcError.invalidUnitValue := by
  constructor
  · exact ((C9_validation inp_fecha).1 (by decide)).1
  · exact ((C9_validation inp_uma0).2 (by decide) (by norm_num [inp_uma0, ex_inp])
      (by norm_num [inp_uma0, ex_inp])).1

-- ===================== claim C10 =====================

/-- Claim C10: when indexAtStart is -100 (and the dates are valid, so the
computation reaches the formula), the divisor 100 + t_o is zero and
calcular fails with the division-by-zero error instead of producing an
output. -/
theorem C10_div_by_zero (inp : CalcInput)
    (h1 : inp.corte < inp.fcalc) (h2 : inp.t_o = -100) :
    calcular inp = Except.error CalcError.divisionByZero := by
  simp [calcular, not_le.mpr h1, h2]

/-- Witness for C10 on the example input with t_o replaced by -100. -/
theorem C10_div_by_zero_witness :
    calcular { ex_inp with t_o := -100 } =
      Except.error CalcError.divisionByZero :=
  C10_div_by_zero { ex_inp with t_o := -100 } (by decide) rfl

-- ===================== claim C2 =====================

/-- Membership in bracket 0 spelled out. -/
lemma contiene_t0 (x : ℚ) : contiene t0 x ↔ 0 ≤ x ∧ x ≤ 15 := by
  simp [contiene, t0]

/-- Membership in bracket 1 spelled out. -/
lemma contiene_t1 (x : ℚ) : contiene t1 x ↔ 16 ≤ x ∧ x ≤ 45 := by
  simp [contiene, t1]

/-- Membership in bracket 2 spelled out. -/
lemma contiene_t2 (x : ℚ) : contiene t2 x ↔ 46 ≤ x ∧ x ≤ 90 := by
  simp [contiene, t2]

/-- Membership in bracket 3 spelled out. -/
lemma contiene_t3 (x : ℚ) : contiene t3 x ↔ 91 ≤ x ∧ x ≤ 150 := by
  simp [contiene, t3]

/-- Membership in bracket 4 spelled out. -/
lemma contiene_t4 (x : ℚ) : contiene t4 x ↔ 151 ≤ x ∧ x ≤ 450 := by
  simp [contiene, t4]

/-- Membership in bracket 5 spelled out. -/
lemma contiene_t5 (x : ℚ) : contiene t5 x ↔ 451 ≤ x ∧ x ≤ 750 := by
  simp [contiene, t5]

/-- Membership in the unbounded bracket 6 spelled out. -/
lemma contiene_t6 (x : ℚ) : contiene t6 x ↔ 751 ≤ x := by
  simp [contiene, t6]

/-- A total strictly above 15 lies strictly above the first bracket. -/
lemma hueco_lt (x : ℚ) (h : enHueco x) : 15 < x := by
  simp only [enHueco] at h
  rcases h with ⟨h1, _⟩|⟨h1, _⟩|⟨h1, _⟩|⟨h1, _⟩|⟨h1, _⟩|⟨h1, _⟩ <;> linarith

/-- No schedule entry contains a total lying in a gap. -/
lemma hueco_no_contiene (x : ℚ) (h : enHueco x) :
    ∀ t ∈ ESCALA, ¬ contiene t x := by
  simp only [enHueco] at h
  intro t ht
  fin_cases ht <;>
    simp only [contiene_t0, contiene_t1, contiene_t2, contiene_t3,
      contiene_t4, contiene_t5, contiene_t6] <;>
    intro hc <;>
    rcases h with ⟨h1, h2⟩|⟨h1, h2⟩|⟨h1, h2⟩|⟨h1, h2⟩|⟨h1, h2⟩|⟨h1, h2⟩ <;>
    first
      | linarith [hc.1, hc.2]
      | linarith

/-- On a gap total the scan matches nothing and the fallback fires. -/
lemma hueco_fallback (x : ℚ) (h : enHueco x) : buscar_tramo x = (0, t0) := by
  have hnone := hueco_no_contiene x h
  rw [buscar_tramo_eq]
  rw [if_neg (hnone t0 (by simp [ESCALA])), if_neg (hnone t1 (by simp [ESCALA])),
    if_neg (hnone t2 (by simp [ESCALA])), if_neg (hnone t3 (by simp [ESCALA])),
    if_neg (hnone t4 (by simp [ESCALA])), if_neg (hnone t5 (by simp [ESCALA])),
    if_neg (hnone t6 (by simp [ESCALA]))]

/-- Claim C2: gap behavior.  For totals strictly inside one of the six
inter-bracket gaps, no schedule entry contains the total, buscar_tramo
returns the defensive fallback (index 0, first bracket), the prior cap
and prior rate are therefore 0, and the whole amount is priced as P2 at
the first-bracket floor rate 0.22 times the multiplier. -/
theorem C2_gap_fallback (x : ℚ) (h : enHueco x) (a b c : Bool) :
    (∀ t ∈ ESCALA, ¬ contiene t x) ∧
    buscar_tramo x = (0, t0) ∧
    (calcular_uma_p1p2 x a b c).2.pct_prev_max = 0 ∧
    (calcular_uma_p1p2 x a b c).2.p1_uma = 0 ∧
    (calcular_uma_p1p2 x a b c).1 = x * ((22/100) * mult_flags a b c) := by
  have hx0 : (0 : ℚ) ≤ x := le_of_lt (lt_trans (by norm_num) (hueco_lt x h))
  have hbt : buscar_tramo x = (0, t0) := hueco_fallback x h
  have hmin : min x (0 : ℚ) = 0 := min_eq_right hx0
  refine ⟨hueco_no_contiene x h, hbt, ?_, ?_, ?_⟩
  · simp [calcular_uma_p1p2, hbt]
  · simp [calcular_uma_p1p2, hbt, hmin]
  · simp [calcular_uma_p1p2, hbt, hmin, t0, max_eq_right hx0]

/-- Witness for C2 at the gap total 45.5 with the apoderado flag on. -/
theorem C2_gap_fallback_witness :
    enHueco (91/2 : ℚ) ∧
    buscar_tramo (91/2 : ℚ) = (0, t0) ∧
    (calcular_uma_p1p2 (91/2) true false false).1 =
      (91/2) * ((22/100) * mult_flags true false false) := by
  have h : enHueco (91/2 : ℚ) := by
    unfold enHueco
    exact Or.inr (Or.inl (by norm_num))
  have hc := C2_gap_fallback (91/2) h true false false
  exact ⟨h, hc.2.1, hc.2.2.2.2⟩

-- ===================== claim C8 =====================

/-- Claim C8: strict monotonicity within a bracket.  For nonnegative
totals x1 < x2 that buscar_tramo sends to the same bracket, and any flag
combination, the fee total of calcular_uma_p1p2 strictly increases. -/
theorem C8_monotonicity (x1 x2 : ℚ) (a b c : Bool) (hx1 : 0 ≤ x1)
    (h12 : x1 < x2) (hsame : buscar_tramo x1 = buscar_tramo x2) :
    (calcular_uma_p1p2 x1 a b c).1 < (calcular_uma_p1p2 x2 a b c).1 := by
  have hM := mult_flags_pos a b c
  rcases buscar_casos x1 with
      h1|⟨h1, hb1⟩|⟨h1, hb1⟩|⟨h1, hb1⟩|⟨h1, hb1⟩|⟨h1, hb1⟩|⟨h1, hb1⟩ <;>
    rcases buscar_casos x2 with
      h2|⟨h2, hb2⟩|⟨h2, hb2⟩|⟨h2, hb2⟩|⟨h2, hb2⟩|⟨h2, hb2⟩|⟨h2, hb2⟩ <;>
    (rw [h1, h2] at hsame; simp [t0, t1, t2, t3, t4, t5, t6] at hsame)
  · rw [total_of_eq x1 a b c 0 t0 h1, total_of_eq x2 a b c 0 t0 h2]
    norm_num [t0]
    rw [min_eq_right (show (0:ℚ) ≤ x1 by linarith),
      min_eq_right (show (0:ℚ) ≤ x2 by linarith)]
    linarith [mul_pos (sub_pos.mpr h12) hM]
  · rw [total_of_eq x1 a b c 1 t1 h1, total_of_eq x2 a b c 1 t1 h2]
    norm_num [ESCALA, t0, t1]
    rw [min_eq_right (show (15:ℚ) ≤ x1 by linarith),
      min_eq_right (show (15:ℚ) ≤ x2 by linarith)]
    linarith [mul_pos (sub_pos.mpr h12) hM]
  · rw [total_of_eq x1 a b c 2 t2 h1, total_of_eq x2 a b c 2 t2 h2]
    norm_num [ESCALA, t0, t1, t2]
    rw [min_eq_right (show (45:ℚ) ≤ x1 by linarith),
      min_eq_right (show (45:ℚ) ≤ x2 by linarith)]
    linarith [mul_pos (sub_pos.mpr h12) hM]
  · rw [total_of_eq x1 a b c 3 t3 h1, total_of_eq x2 a b c 3 t3 h2]
    norm_num [ESCALA, t0, t1, t2, t3]
    rw [min_eq_right (show (90:ℚ) ≤ x1 by linarith),
      min_eq_right (show (90:ℚ) ≤ x2 by linarith)]
    linarith [mul_pos (sub_pos.mpr h12) hM]
  · rw [total_of_eq x1 a b c 4 t4 h1, total_of_eq x2 a b c 4 t4 h2]
    norm_num [ESCALA, t0, t1, t2, t3, t4]
    rw [min_eq_right (show (150:ℚ) ≤ x1 by linarith),
      min_eq_right (show (150:ℚ) ≤ x2 by linarith)]
    linarith [mul_pos (sub_pos.mpr h12) hM]
  · rw [total_of_eq x1 a b c 5 t5 h1, total_of_eq x2 a b c 5 t5 h2]
    norm_num [ESCALA, t0, t1, t2, t3, t4, t5]
    rw [min_eq_right (show (450:ℚ) ≤ x1 by linarith),
      min_eq_right (show (450:ℚ) ≤ x2 by linarith)]
    linarith [mul_pos (sub_pos.mpr h12) hM]
  · rw [total_of_eq x1 a b c 6 t6 h1, total_of_eq x2 a b c 6 t6 h2]
    norm_num [ESCALA, t0, t1, t2, t3, t4, t5, t6]
    rw [min_eq_right (show (750:ℚ) ≤ x1 by linarith),
      min_eq_right (show (750:ℚ) ≤ x2 by linarith)]
    linarith [mul_pos (sub_pos.mpr h12) hM]

/-- Witness for C8 with totals 1 and 2, both inside the first bracket. -/
theorem C8_monotonicity_witness :
    (calcular_uma_p1p2 1 true true true).1 <
      (calcular_uma_p1p2 2 true true true).1 :=
  C8_monotonicity 1 2 true true true (by norm_num) (by norm_num)
    (by rw [buscar_tramo_eq, buscar_tramo_eq,
          if_pos ((contiene_t0 1).mpr (by norm_num)),
          if_pos ((contiene_t0 2).mpr (by norm_num))])

-- ===================== claim C1 =====================

/-- Entry 0 of the schedule by position. -/
lemma getD_ESCALA_0 : ESCALA.getD 0 t0 = t0 := rfl

/-- Entry 1 of the schedule by position. -/
lemma getD_ESCALA_1 : ESCALA.getD 1 t0 = t1 := rfl

/-- Entry 2 of the schedule by position. -/
lemma getD_ESCALA_2 : ESCALA.getD 2 t0 = t2 := rfl

/-- Entry 3 of the schedule by position. -/
lemma getD_ESCALA_3 : ESCALA.getD 3 t0 = t3 := rfl

/-- Entry 4 of the schedule by position. -/
lemma getD_ESCALA_4 : ESCALA.getD 4 t0 = t4 := rfl

/-- Entry 5 of the schedule by position. -/
lemma getD_ESCALA_5 : ESCALA.getD 5 t0 = t5 := rfl

/-- Entry 6 of the schedule by position. -/
lemma getD_ESCALA_6 : ESCALA.getD 6 t0 = t6 := rfl

/-- A total above 15 escapes bracket 0. -/
lemma no_cont_t0 (x : ℚ) (h : 15 < x) : ¬ contiene t0 x :=
  fun hc => absurd ((contiene_t0 x).mp hc).2 (by linarith)

/-- A total above 45 escapes bracket 1. -/
lemma no_cont_t1 (x : ℚ) (h : 45 < x) : ¬ contiene t1 x :=
  fun hc => absurd ((contiene_t1 x).mp hc).2 (by linarith)

/-- A total above 90 escapes bracket 2. -/
lemma no_cont_t2 (x : ℚ) (h : 90 < x) : ¬ contiene t2 x :=
  fun hc => absurd ((contiene_t2 x).mp hc).2 (by linarith)

/-- A total above 150 escapes bracket 3. -/
lemma no_cont_t3 (x : ℚ) (h : 150 < x) : ¬ contiene t3 x :=
  fun hc => absurd ((contiene_t3 x).mp hc).2 (by linarith)

/-- A total above 450 escapes bracket 4. -/
lemma no_cont_t4 (x : ℚ) (h : 450 < x) : ¬ contiene t4 x :=
  fun hc => absurd ((contiene_t4 x).mp hc).2 (by linarith)

/-- A total above 750 escapes bracket 5. -/
lemma no_cont_t5 (x : ℚ) (h : 750 < x) : ¬ contiene t5 x :=
  fun hc => absurd ((contiene_t5 x).mp hc).2 (by linarith)

/-- Counterexample to claim C1 as stated: the schedule is not a gap-free
partition of the nonnegative totals.  The total 15.5 is nonnegative, no
bracket of the schedule contains it, and buscar_tramo does not return a
containing bracket for it: it returns the fallback (0, first bracket)
even though the first bracket does not contain 15.5. -/
theorem C1_counterexample :
    (0 : ℚ) ≤ 31/2 ∧
    (∀ t ∈ ESCALA, ¬ contiene t (31/2 : ℚ)) ∧
    buscar_tramo (31/2 : ℚ) = (0, t0) ∧
    ¬ contiene t0 (31/2 : ℚ) := by
  have h : enHueco (31/2 : ℚ) := by
    unfold enHueco
    exact Or.inl (by norm_num)
  have hnone := hueco_no_contiene (31/2) h
  exact ⟨by norm_num, hnone, hueco_fallback (31/2) h,
    hnone t0 (by simp [ESCALA])⟩

/-- Claim C1 as amended: the 7-entry schedule is strictly ascending and
non-overlapping with exactly the last bracket unbounded, but it is
gap-free only outside the six open unit gaps (15,16), (45,46), (90,91),
(150,151), (450,451), (750,751): every nonnegative total outside those
gaps lies in exactly one bracket and buscar_tramo returns that unique
bracket; integer totals never fall in a gap, so the partition is complete
on the integers. -/
theorem C1_amended :
    (ESCALA.length = 7 ∧
     (∀ i, i < 6 →
        (ESCALA.getD i t0).max_uma ≠ none ∧
        (ESCALA.getD i t0).min_uma ≤ ((ESCALA.getD i t0).max_uma).getD 0 ∧
        ((ESCALA.getD i t0).max_uma).getD 0 < (ESCALA.getD (i+1) t0).min_uma) ∧
     (ESCALA.getD 6 t0).max_uma = none) ∧
    (∀ x : ℚ, 0 ≤ x → ¬ enHueco x →
      ∃ i, buscar_tramo x = (i, ESCALA.getD i t0) ∧
        contiene (ESCALA.getD i t0) x ∧
        ∀ j, j < ESCALA.length → contiene (ESCALA.getD j t0) x → j = i) ∧
    (∀ n : ℕ, ¬ enHueco (n : ℚ)) := by
  refine ⟨⟨rfl, ?_, rfl⟩, ?_, ?_⟩
  · intro i hi
    interval_cases i <;>
      simp only [getD_ESCALA_0, getD_ESCALA_1, getD_ESCALA_2, getD_ESCALA_3,
        getD_ESCALA_4, getD_ESCALA_5, getD_ESCALA_6] <;>
      norm_num [ESCALA, t0, t1, t2, t3, t4, t5, t6] <;>
      exact Option.some_ne_none _
  · intro x hx hg
    simp only [enHueco] at hg
    push_neg at hg
    obtain ⟨hg1, hg2, hg3, hg4, hg5, hg6⟩ := hg
    rcases le_or_lt x 15 with h15 | h15
    · refine ⟨0, ?_, (contiene_t0 x).mpr ⟨hx, h15⟩, ?_⟩
      · rw [buscar_tramo_eq, if_pos ((contiene_t0 x).mpr ⟨hx, h15⟩), getD_ESCALA_0]
      · intro j hj hc
        have hj7 : j < 7 := by simpa [ESCALA] using hj
        interval_cases j <;>
          simp only [getD_ESCALA_0, getD_ESCALA_1, getD_ESCALA_2,
            getD_ESCALA_3, getD_ESCALA_4, getD_ESCALA_5, getD_ESCALA_6,
            contiene_t0, contiene_t1, contiene_t2, contiene_t3, contiene_t4,
            contiene_t5, contiene_t6] at hc <;>
          first
            | rfl
            | (exfalso; linarith [hc.1, hc.2])
            | (exfalso; linarith [hc])
    · have h16 : 16 ≤ x := hg1 h15
      rcases le_or_lt x 45 with h45 | h45
      · refine ⟨1, ?_, (contiene_t1 x).mpr ⟨h16, h45⟩, ?_⟩
        · rw [buscar_tramo_eq, if_neg (no_cont_t0 x (by linarith)),
            if_pos ((contiene_t1 x).mpr ⟨h16, h45⟩), getD_ESCALA_1]
        · intro j hj hc
          have hj7 : j < 7 := by simpa [ESCALA] using hj
          interval_cases j <;>
            simp only [getD_ESCALA_0, getD_ESCALA_1, getD_ESCALA_2,
              getD_ESCALA_3, getD_ESCALA_4, getD_ESCALA_5, getD_ESCALA_6,
              contiene_t0, contiene_t1, contiene_t2, contiene_t3, contiene_t4,
              contiene_t5, contiene_t6] at hc <;>
            first
              | rfl
              | (exfalso; linarith [hc.1, hc.2])
              | (exfalso; linarith [hc])
      · have h46 : 46 ≤ x := hg2 h45
        rcases le_or_lt x 90 with h90 | h90
        · refine ⟨2, ?_, (contiene_t2 x).mpr ⟨h46, h90⟩, ?_⟩
          · rw [buscar_tramo_eq, if_neg (no_cont_t0 x (by linarith)),
              if_neg (no_cont_t1 x (by linarith)),
              if_pos ((contiene_t2 x).mpr ⟨h46, h90⟩), getD_ESCALA_2]
          · intro j hj hc
            have hj7 : j < 7 := by simpa [ESCALA] using hj
            interval_cases j <;>
              simp only [getD_ESCALA_0, getD_ESCALA_1, getD_ESCALA_2,
                getD_ESCALA_3, getD_ESCALA_4, getD_ESCALA_5, getD_ESCALA_6,
                contiene_t0, contiene_t1, contiene_t2, contiene_t3,
                contiene_t4, contiene_t5, contiene_t6] at hc <;>
              first
                | rfl
                | (exfalso; linarith [hc.1, hc.2])
                | (exfalso; linarith [hc])
        · have h91 : 91 ≤ x := hg3 h90
          rcases le_or_lt x 150 with h150 | h150
          · refine ⟨3, ?_, (contiene_t3 x).mpr ⟨h91, h150⟩, ?_⟩
            · rw [buscar_tramo_eq, if_neg (no_cont_t0 x (by linarith)),
                if_neg (no_cont_t1 x (by linarith)),
                if_neg (no_cont_t2 x (by linarith)),
                if_pos ((contiene_t3 x).mpr ⟨h91, h150⟩), getD_ESCALA_3]
            · intro j hj hc
              have hj7 : j < 7 := by simpa [ESCALA] using hj
              interval_cases j <;>
                simp only [getD_ESCALA_0, getD_ESCALA_1, getD_ESCALA_2,
                  getD_ESCALA_3, getD_ESCALA_4, getD_ESCALA_5, getD_ESCALA_6,
                  contiene_t0, contiene_t1, contiene_t2, contiene_t3,
                  contiene_t4, contiene_t5, contiene_t6] at hc <;>
                first
                  | rfl
                  | (exfalso; linarith [hc.1, hc.2])
                  | (exfalso; linarith [hc])
          · have h151 : 151 ≤ x := hg4 h150
            rcases le_or_lt x 450 with h450 | h450
            · refine ⟨4, ?_, (contiene_t4 x).mpr ⟨h151, h450⟩, ?_⟩
              · rw [buscar_tramo_eq, if_neg (no_cont_t0 x (by linarith)),
                  if_neg (no_cont_t1 x (by linarith)),
                  if_neg (no_cont_t2 x (by linarith)),
                  if_neg (no_cont_t3 x (by linarith)),
                  if_pos ((contiene_t4 x).mpr ⟨h151, h450⟩), getD_ESCALA_4]
              · intro j hj hc
                have hj7 : j < 7 := by simpa [ESCALA] using hj
                interval_cases j <;>
                  simp only [getD_ESCALA_0, getD_ESCALA_1, getD_ESCALA_2,
                    getD_ESCALA_3, getD_ESCALA_4, getD_ESCALA_5, getD_ESCALA_6,
                    contiene_t0, contiene_t1, contiene_t2, contiene_t3,
                    contiene_t4, contiene_t5, contiene_t6] at hc <;>
                  first
                    | rfl
                    | (exfalso; linarith [hc.1, hc.2])
                    | (exfalso; linarith [hc])
            · have h451 : 451 ≤ x := hg5 h450
              rcases le_or_lt x 750 with h750 | h750
              · refine ⟨5, ?_, (contiene_t5 x).mpr ⟨h451, h750⟩, ?_⟩
                · rw [buscar_tramo_eq, if_neg (no_cont_t0 x (by linarith)),
                    if_neg (no_cont_t1 x (by linarith)),
                    if_neg (no_cont_t2 x (by linarith)),
                    if_neg (no_cont_t3 x (by linarith)),
                    if_neg (no_cont_t4 x (by linarith)),
                    if_pos ((contiene_t5 x).mpr ⟨h451, h750⟩), getD_ESCALA_5]
                · intro j hj hc
                  have hj7 : j < 7 := by simpa [ESCALA] using hj
                  interval_cases j <;>
                    simp only [getD_ESCALA_0, getD_ESCALA_1, getD_ESCALA_2,
                      getD_ESCALA_3, getD_ESCALA_4, getD_ESCALA_5,
                      getD_ESCALA_6, contiene_t0, contiene_t1, contiene_t2,
                      contiene_t3, contiene_t4, contiene_t5, contiene_t6]
                      at hc <;>
                    first
                      | rfl
                      | (exfalso; linarith [hc.1, hc.2])
                      | (exfalso; linarith [hc])
              · have h751 : 751 ≤ x := hg6 h750
                refine ⟨6, ?_, (contiene_t6 x).mpr h751, ?_⟩
                · rw [buscar_tramo_eq, if_neg (no_cont_t0 x (by linarith)),
                    if_neg (no_cont_t1 x (by linarith)),
                    if_neg (no_cont_t2 x (by linarith)),
                    if_neg (no_cont_t3 x (by linarith)),
                    if_neg (no_cont_t4 x (by linarith)),
                    if_neg (no_cont_t5 x (by linarith)),
                    if_pos ((contiene_t6 x).mpr h751), getD_ESCALA_6]
                · intro j hj hc
                  have hj7 : j < 7 := by simpa [ESCALA] using hj
                  interval_cases j <;>
                    simp only [getD_ESCALA_0, getD_ESCALA_1, getD_ESCALA_2,
                      getD_ESCALA_3, getD_ESCALA_4, getD_ESCALA_5,
                      getD_ESCALA_6, contiene_t0, contiene_t1, contiene_t2,
                      contiene_t3, contiene_t4, contiene_t5, contiene_t6]
                      at hc <;>
                    first
                      | rfl
                      | (exfalso; linarith [hc.1, hc.2])
                      | (exfalso; linarith [hc])
  · intro n hn
    simp only [enHueco] at hn
    rcases hn with ⟨h1, h2⟩|⟨h1, h2⟩|⟨h1, h2⟩|⟨h1, h2⟩|⟨h1, h2⟩|⟨h1, h2⟩
    · have a1 : 15 < n := by exact_mod_cast h1
      have a2 : n < 16 := by exact_mod_cast h2
      omega
    · have a1 : 45 < n := by exact_mod_cast h1
      have a2 : n < 46 := by exact_mod_cast h2
      omega
    · have a1 : 90 < n := by exact_mod_cast h1
      have a2 : n < 91 := by exact_mod_cast h2
      omega
    · have a1 : 150 < n := by exact_mod_cast h1
      have a2 : n < 151 := by exact_mod_cast h2
      omega
    · have a1 : 450 < n := by exact_mod_cast h1
      have a2 : n < 451 := by exact_mod_cast h2
      omega
    · have a1 : 750 < n := by exact_mod_cast h1
      have a2 : n < 751 := by exact_mod_cast h2
      omega

/-- Witness for C1 as amended, at the non-gap total 20: bracket 1 is the
unique bracket containing 20 and buscar_tramo returns it. -/
theorem C1_amended_witness :
    (0 : ℚ) ≤ 20 ∧ ¬ enHueco (20 : ℚ) ∧
    (∃ i, buscar_tramo (20 : ℚ) = (i, ESCALA.getD i t0) ∧
      contiene (ESCALA.getD i t0) (20 : ℚ) ∧
      ∀ j, j < ESCALA.length → contiene (ESCALA.getD j t0) (20 : ℚ) → j = i) := by
  have hg : ¬ enHueco (20 : ℚ) := by
    unfold enHueco
    push_neg
    norm_num
  exact ⟨by norm_num, hg, C1_amended.2.1 20 (by norm_num) hg⟩
